import Mathlib

/-!
Verification of the wudder python-sdk client (`wudder/client.py`) against its
natural-language specification.  The source file is shallowly embedded below:
pure request/response processing becomes Lean functions, exception raising
becomes `Except`, and the mutable client state (`refresh_token` plus the
transport header map) becomes explicit state passing.  Modules of this
repository that are not part of the provided source tree (`wudder/utils.py`,
`wudder/exceptions.py`, `wudder/event.py`) are modelled from the
specification, and each such definition says so in its doc comment.
-/

/-- A JSON-like value, the shape of the payloads the GraphQL transport
delivers: the dictionaries, strings, numbers and null values that
`client.py` subscripts and compares. -/
inductive JVal where
  | str (s : String)
  | num (n : Int)
  | obj (fields : List (String × JVal))
  | arr (xs : List JVal)
  | null
  | bool (b : Bool)

/-- A transport error entry: per the spec (§6) a mapping possibly containing
an integer code field.  Embedded as an association list of JSON values. -/
def ErrorEntry : Type := List (String × JVal)

/-- Python `entry[key] == n` for an integer literal `n`: true exactly when the
value stored at the key is that integer. -/
def JVal.isNum (v : JVal) (n : Int) : Bool :=
  match v with
  | .num m => m = n
  | _ => false

/-- The payload an exception carries in `client.py`: either the first transport
error entry (as in `_manage_errors`) or a plain message string (as in
`get_event`, which raises with the message "event not found"). -/
inductive ErrPayload where
  | entry (e : List (String × JVal))
  | message (s : String)

/-- Modelled from the spec: the exception taxonomy of `wudder/exceptions.py`,
which is not under the provided source tree.  §7 names the five classified
kinds (RateLimited, NotFound, Unauthorized, BadRequest, Unexpected) plus
transport-level connection faults; the Python-level KeyError, TypeError and
NameError are the builtin exceptions the embedded code can raise. -/
inductive PyError where
  | keyError (k : String)
  | typeError (msg : String)
  | nameError (n : String)
  | connError
  | rateLimitExceededError (payload : ErrPayload)
  | notFoundError (payload : ErrPayload)
  | authError (payload : ErrPayload)
  | badRequestError (payload : ErrPayload)
  | unexpectedError (payload : ErrPayload)

/-- `WudderClient._manage_errors` (client.py lines 120-139).  An empty list
returns immediately (no failure).  Otherwise the first entry is subscripted at
the key "code": a missing key raises KeyError, which the surrounding handler
turns into UnexpectedError carrying the first entry; a present code equal to
429, 404, 401 or 400 raises the corresponding typed error; any other present
code matches no branch and the function falls through, returning normally. -/
def manage_errors (errors : List ErrorEntry) : Except PyError Unit :=
  match errors with
  | [] => .ok ()
  | e :: _ =>
    match List.lookup "code" e with
    | none => .error (.unexpectedError (.entry e))
    | some c =>
      if c.isNum 429 then .error (.rateLimitExceededError (.entry e))
      else if c.isNum 404 then .error (.notFoundError (.entry e))
      else if c.isNum 401 then .error (.authError (.entry e))
      else if c.isNum 400 then .error (.badRequestError (.entry e))
      else .ok ()

/-- The amended classification contract, written from the corrected claim
text: empty list means no failure; a first entry whose code field is absent
classifies as Unexpected; code 429, 404, 401 or 400 classifies as the
corresponding kind; any other present code value yields no failure at all
(the source falls through and returns none). -/
def classify_amended (errors : List ErrorEntry) : Except PyError Unit :=
  match errors with
  | [] => .ok ()
  | e :: _ =>
    match List.lookup "code" e with
    | none => .error (.unexpectedError (.entry e))
    | some c =>
      if c.isNum 429 then .error (.rateLimitExceededError (.entry e))
      else if c.isNum 404 then .error (.notFoundError (.entry e))
      else if c.isNum 401 then .error (.authError (.entry e))
      else if c.isNum 400 then .error (.badRequestError (.entry e))
      else .ok ()

example : manage_errors [[("code", JVal.num 500)]] = .ok () := rfl
example : manage_errors [[("detail", JVal.str "x")]]
    = .error (.unexpectedError (.entry [("detail", JVal.str "x")])) := rfl
example : manage_errors [[("code", JVal.num 404)]]
    = .error (.notFoundError (.entry [("code", JVal.num 404)])) := rfl

/-- `WudderClient.DEFAULT_GRAPHQL_ENDPOINT` (client.py line 15). -/
def DEFAULT_GRAPHQL_ENDPOINT : String := "https://api.phoenix.wudder.tech/graphql/"

/-- The refresh interval: `_loop_refresh` sleeps `time.sleep(900)` between
ticks (client.py line 112), a literal constant in the source. -/
def REFRESH_INTERVAL_SECONDS : Nat := 900

/-- The parameter list of `WudderClient.__init__` (client.py lines 17-21):
the only configuration the constructor accepts. -/
def wudderClientInitParams : List String :=
  ["email", "password", "private_key_password", "graphql_endpoint"]

/-- The mutable state of a `WudderClient` instance that the session layer
touches: the stored `refresh_token` (client.py line 26, initially None) and
the transport header map held by the GraphQL object.  The transport
(easygraphql, an external collaborator per spec §2) is modelled by its header
state alone: `set_headers(h)` stores the mapping `h`. -/
structure WudderClientState where
  refresh_token : Option String
  headers : List (String × String)
  deriving DecidableEq

/-- The state of a freshly constructed client: `refresh_token = None` and no
authentication header set (client.py lines 25-26). -/
def initialClientState : WudderClientState :=
  { refresh_token := none, headers := [] }

/-- `WudderClient._update_tokens` (client.py lines 116-118): stores the new
refresh token, then calls `set_headers` with the map binding "x-jwt-token"
to the new access token. -/
def update_tokens (_s : WudderClientState) (token refresh_token : String) :
    WudderClientState :=
  { refresh_token := some refresh_token,
    headers := [("x-jwt-token", token)] }

/-- One atomic field write performed by `_update_tokens`: the body is two
separate statements, an assignment to `self.refresh_token` and a
`set_headers` call, each individually atomic but not guarded together. -/
inductive TokenWrite where
  | setRefresh (r : String)
  | setHeader (t : String)
  deriving DecidableEq

/-- Effect of a single atomic write on the client state. -/
def applyWrite (s : WudderClientState) : TokenWrite → WudderClientState
  | .setRefresh r => { s with refresh_token := some r }
  | .setHeader t => { s with headers := [("x-jwt-token", t)] }

/-- The write sequence of one `_update_tokens(token, refresh_token)` call, in
source order: first the refresh-token assignment (line 117), then the header
update (line 118). -/
def update_tokens_writes (token refresh_token : String) : List TokenWrite :=
  [.setRefresh refresh_token, .setHeader token]

/-- Executing a sequence of atomic writes in order. -/
def execWrites (s : WudderClientState) (ws : List TokenWrite) : WudderClientState :=
  ws.foldl applyWrite s

/-- `ws` is an interleaving of `xs` and `ys`: the order within each of the two
write sequences is preserved, arbitrary merge between them.  This is the set
of schedules two concurrent `_update_tokens` calls can produce, each
individual statement being atomic under the interpreter. -/
inductive Interleave : List TokenWrite → List TokenWrite → List TokenWrite → Prop
  | nil : Interleave [] [] []
  | left {x xs ys zs} : Interleave xs ys zs → Interleave (x :: xs) ys (x :: zs)
  | right {y xs ys zs} : Interleave xs ys zs → Interleave xs (y :: ys) (y :: zs)

/-- The value of the last `setRefresh` write in a schedule, if any. -/
def lastSetRefresh : List TokenWrite → Option String
  | [] => none
  | .setRefresh r :: ws =>
    match lastSetRefresh ws with
    | some x => some x
    | none => some r
  | .setHeader _ :: ws => lastSetRefresh ws

/-- The value of the last `setHeader` write in a schedule, if any. -/
def lastSetHeader : List TokenWrite → Option String
  | [] => none
  | .setHeader t :: ws =>
    match lastSetHeader ws with
    | some x => some x
    | none => some t
  | .setRefresh _ :: ws => lastSetHeader ws

/-- `WudderClient._loop_refresh` (client.py lines 110-114), run over a finite
prefix of tick outcomes.  Each iteration sleeps, performs the refresh call
(whose outcome for that tick is the next list element) and, on success,
updates the tokens.  The loop body has no exception handler: the first
failing refresh call propagates out of `while True` and the thread dies.
Returns the final client state and the escaped exception, if any. -/
def loop_refresh (s : WudderClientState) :
    List (Except PyError (String × String)) → WudderClientState × Option PyError
  | [] => (s, none)
  | .error e :: _ => (s, some e)
  | .ok (token, refresh_token) :: rest =>
      loop_refresh (update_tokens s token refresh_token) rest

/-- Modelled from the spec: which failures the retry policy re-invokes on.
`wudder/utils.py` (the `retry` decorator) is not under the provided source
tree; §4.2 and §7 say RateLimited and transport-level connection faults are
retried under a bounded backoff policy, and every other failure — NotFound,
Unauthorized, BadRequest, Unexpected, and Python-level faults — surfaces
immediately. -/
def retryable : PyError → Bool
  | .rateLimitExceededError _ => true
  | .connError => true
  | _ => false

/-- The four non-retryable classified kinds named by the spec (§4.2): a
failure produced by the Error Classifier that the Retry Policy must surface
unchanged on the first attempt. -/
def isClassifiedNonRetryable : PyError → Bool
  | .notFoundError _ => true
  | .authError _ => true
  | .badRequestError _ => true
  | .unexpectedError _ => true
  | _ => false

/-- Modelled from the spec: the `retry` decorator of `wudder/utils.py` (not
under the provided source tree), per §4.2.  The wrapped operation is given as
the list of outcomes successive attempts would produce; `remaining` is the
retry budget (how many further attempts the bounded policy still allows
after the current one).  A success returns at once; a retryable failure with
budget left backs off and re-invokes; any other failure, or a retryable one
with the budget exhausted, surfaces unchanged.  Backoff delays do not affect
values and are omitted.  Returns the result and the number of attempts
performed. -/
def callWithRetry {α : Type} : Nat → List (Except PyError α) → Except PyError α × Nat
  | _, [] => (.error .connError, 0)
  | 0, o :: _ => (o, 1)
  | n + 1, o :: rest =>
    match o with
    | .ok a => (.ok a, 1)
    | .error e =>
      if retryable e then
        let (r, k) := callWithRetry n rest
        (r, k + 1)
      else (.error e, 1)

example :
    callWithRetry 3 [.error (.notFoundError (.message "x")), .ok (JVal.num 1)]
      = (.error (.notFoundError (.message "x")), 1) := rfl
example :
    callWithRetry 3 [.error .connError, .ok (JVal.num 1)] = (.ok (JVal.num 1), 2) := rfl

/-- Python dictionary subscript `d[k]`: the stored value, or KeyError when the
key is absent. -/
def dictGet (d : List (String × JVal)) (k : String) : Except PyError JVal :=
  match List.lookup k d with
  | some v => .ok v
  | none => .error (.keyError k)

/-- `WudderClient.get_proof` (client.py lines 96-108).  The argument is the
query result `data["evidence"]`: `none` when the evidence record is null,
`some none` when it exists but its graphnData field is null, and
`some (some graphn_data)` when the graphnData JSON string parses to the
dictionary `graphn_data` (`json.loads` is the standard library, out of scope;
the embedding receives the already-parsed dictionary).  The source returns
with no value when the record or its graphnData is missing; otherwise it
builds `proof_data` by subscripting "block_proof" (KeyError when absent) and,
when the key "proof" is present, also copies "proof" and subscripts
"prefixes" (KeyError when absent). -/
def get_proof (response : Option (Option (List (String × JVal)))) :
    Except PyError (Option (List (String × JVal))) :=
  match response with
  | none => .ok none
  | some none => .ok none
  | some (some graphn_data) => do
    let bp ← dictGet graphn_data "block_proof"
    if (List.lookup "proof" graphn_data).isSome then do
      let p ← dictGet graphn_data "proof"
      let pre ← dictGet graphn_data "prefixes"
      return some [("block_proof", bp), ("proof", p), ("prefixes", pre)]
    else
      return some [("block_proof", bp)]

/-- The amended getProof contract, written from the corrected claim text: a
missing record or missing graphnData returns nothing; a graphnData dictionary
without "block_proof" raises KeyError "block_proof"; with "block_proof"
present and "proof" absent the result holds only "block_proof"; with "proof"
also present the result holds all three fields when "prefixes" is present and
raises KeyError "prefixes" otherwise. -/
def get_proof_amended_spec (response : Option (Option (List (String × JVal)))) :
    Except PyError (Option (List (String × JVal))) :=
  match response with
  | none => .ok none
  | some none => .ok none
  | some (some graphn_data) =>
    match List.lookup "block_proof" graphn_data with
    | none => .error (.keyError "block_proof")
    | some bp =>
      match List.lookup "proof" graphn_data with
      | none => .ok (some [("block_proof", bp)])
      | some p =>
        match List.lookup "prefixes" graphn_data with
        | none => .error (.keyError "prefixes")
        | some pre =>
            .ok (some [("block_proof", bp), ("proof", p), ("prefixes", pre)])

/-- One transport exchange as the spec describes it (§6): the data payload and
the error list returned by `execute`. -/
structure TransportResult where
  data : Option (List (String × JVal))
  errors : List ErrorEntry

/-- One attempt of `WudderClient._get_event_call` (client.py lines 290-307):
execute the evidence query, classify the error list (raising on a classified
failure), then subscript the data payload at "evidence".  Subscripting a
None data payload is a Python TypeError; a data dictionary without the
requested key is a KeyError. -/
def get_event_call_once (t : TransportResult) : Except PyError JVal :=
  match manage_errors t.errors with
  | .error e => .error e
  | .ok _ =>
    match t.data with
    | none => .error (.typeError "NoneType is not subscriptable")
    | some d =>
      match List.lookup "evidence" d with
      | some v => .ok v
      | none => .error (.keyError "evidence")

/-- `_get_event_call` under its `retry` decorator: the transport results of
successive attempts are given as a list, and the retry policy (modelled from
the spec, see `callWithRetry`) drives re-invocation. -/
def get_event_call (budget : Nat) (ts : List TransportResult) :
    Except PyError JVal × Nat :=
  callWithRetry budget (ts.map get_event_call_once)

/-- `WudderClient.get_event` (client.py lines 78-91): performs the
retry-wrapped evidence query and raises NotFoundError with the message
"event not found" when the returned payload is None.  The subsequent
construction of the Event object from the payload (lines 83-91) re-shapes
fields through `json.loads` and the record model of wudder/event.py, which is
out-of-scope collaborator code per spec §1; the embedding returns the raw
evidence payload on that path, which no claim inspects.  Returns the result
and the number of transport attempts performed. -/
def get_event (budget : Nat) (ts : List TransportResult) :
    Except PyError JVal × Nat :=
  match get_event_call budget ts with
  | (.error e, n) => (.error e, n)
  | (.ok JVal.null, n) => (.error (.notFoundError (.message "event not found")), n)
  | (.ok v, n) => (.ok v, n)

/-- The local bindings in scope inside the body of `create_user` after Python
binds its parameters (defaults already resolved): a `@staticmethod` receives
no `self` binding, so these four parameters are the only local names. -/
def create_user_locals (email password private_key graphql_endpoint : String) :
    List (String × String) :=
  [("email", email), ("password", password), ("private_key", private_key),
    ("graphql_endpoint", graphql_endpoint)]

/-- `WudderClient.create_user` (client.py lines 29-33).  The endpoint default
is resolved first (lines 31-32); then line 33 evaluates the expression
`self._create_user_call(...)`, whose first step resolves the name `self`
among the local bindings.  The method is a `@staticmethod`, so `self` is
unbound and evaluation raises NameError before the remote user-creation
mutation can be issued.  The first component lists the remote calls issued
during the invocation. -/
def create_user (email password private_key : String)
    (graphql_endpoint : Option String) : List String × Except PyError Unit :=
  let endpoint :=
    match graphql_endpoint with
    | none => DEFAULT_GRAPHQL_ENDPOINT
    | some g => g
  match List.lookup "self" (create_user_locals email password private_key endpoint) with
  | some _ => (["_create_user_call"], .ok ())
  | none => ([], .error (.nameError "name self is not defined"))

/-! ## Helper lemmas -/

/-- A success on the current attempt returns at once, after exactly one
attempt, whatever retry budget remains. -/
theorem callWithRetry_first_ok {α : Type} (budget : Nat) (a : α)
    (rest : List (Except PyError α)) :
    callWithRetry budget (Except.ok a :: rest) = (Except.ok a, 1) := by
  cases budget <;> rfl

/-- A non-retryable failure on the current attempt surfaces unchanged, after
exactly one attempt, whatever retry budget remains. -/
theorem callWithRetry_first_not_retryable {α : Type} (budget : Nat) (e : PyError)
    (rest : List (Except PyError α)) (h : retryable e = false) :
    callWithRetry budget (Except.error e :: rest) = (Except.error e, 1) := by
  cases budget with
  | zero => rfl
  | succ n => simp [callWithRetry, h]

/-- The four classified non-retryable kinds are indeed outside the retry
policy of the spec model. -/
theorem classified_nonretryable_not_retryable (e : PyError)
    (h : isClassifiedNonRetryable e = true) : retryable e = false := by
  cases e <;> simp_all [retryable, isClassifiedNonRetryable]

/-- Executing any write schedule leaves each field of the client state at the
value of the last write touching that field, independently of the other
field: per-field last-writer-wins. -/
theorem execWrites_lastWrite (ws : List TokenWrite) :
    ∀ s : WudderClientState,
      (execWrites s ws).refresh_token
        = (match lastSetRefresh ws with
           | some r => some r
           | none => s.refresh_token)
      ∧ (execWrites s ws).headers
        = (match lastSetHeader ws with
           | some t => [("x-jwt-token", t)]
           | none => s.headers) := by
  induction ws with
  | nil => intro s; exact ⟨rfl, rfl⟩
  | cons w ws ih =>
    intro s
    have hstep : execWrites s (w :: ws) = execWrites (applyWrite s w) ws := rfl
    obtain ⟨ih1, ih2⟩ := ih (applyWrite s w)
    cases w with
    | setRefresh r =>
      refine ⟨?_, ?_⟩
      · rw [hstep, ih1]
        cases h : lastSetRefresh ws with
        | none => simp [lastSetRefresh, h, applyWrite]
        | some x => simp [lastSetRefresh, h]
      · rw [hstep, ih2]
        cases h : lastSetHeader ws with
        | none => simp [lastSetHeader, h, applyWrite]
        | some x => simp [lastSetHeader, h]
    | setHeader t =>
      refine ⟨?_, ?_⟩
      · rw [hstep, ih1]
        cases h : lastSetRefresh ws with
        | none => simp [lastSetRefresh, h, applyWrite]
        | some x => simp [lastSetRefresh, h]
      · rw [hstep, ih2]
        cases h : lastSetHeader ws with
        | none => simp [lastSetHeader, h, applyWrite]
        | some x => simp [lastSetHeader, h]

/-! ## Claim theorems -/

/-- C1 counterexample: the claim says any code value outside 429, 404, 401,
400 produces an Unexpected failure carrying the first error.  On the error
list whose first entry has code 500 the source matches no branch, raises no
KeyError, and falls through: `_manage_errors` returns with no failure at
all. -/
theorem manage_errors_unknown_code_cex :
    manage_errors [[("code", JVal.num 500)]] = Except.ok () := rfl

/-- C1 amended: an empty error list yields no failure; a first entry with
code 429, 404, 401 or 400 yields the corresponding failure kind; a first
entry with no code field yields Unexpected carrying the first error; a first
entry with any other code value yields no failure (the classifier falls
through and returns none). -/
theorem manage_errors_matches_amended_classification :
    ∀ errors : List ErrorEntry, manage_errors errors = classify_amended errors := by
  intro errors
  cases errors with
  | nil => rfl
  | cons e rest =>
    cases hl : List.lookup "code" e <;> simp [manage_errors, classify_amended, hl]

/-- C2 counterexample: a trace in which the first scheduled refresh fails and
the next would succeed with a fresh pair.  The claim says the loop survives
the failure and performs the refresh at the next tick; in the source the
exception escapes the unguarded `while True` body, the loop dies with it,
and the later tick is never reached: the final state still holds no refresh
token. -/
theorem loop_refresh_dies_on_failure_cex :
    loop_refresh initialClientState
        [Except.error PyError.connError, Except.ok ("tok2", "ref2")]
      = (initialClientState, some PyError.connError)
    ∧ (loop_refresh initialClientState
        [Except.error PyError.connError, Except.ok ("tok2", "ref2")]).1.refresh_token
      ≠ some "ref2" := by
  exact ⟨rfl, by decide⟩

/-- C2 amended: the refresh loop keeps the last-known tokens across a failed
tick, but it does not continue: the first failing refresh call propagates out
of the loop body and terminates the loop, so no further tick is processed.
A successful tick updates the tokens and continues; an exhausted trace ends
with the state unchanged and no escaped failure. -/
theorem loop_refresh_terminates_on_failure :
    (∀ (s : WudderClientState) (e : PyError)
        (rest : List (Except PyError (String × String))),
      loop_refresh s (Except.error e :: rest) = (s, some e))
    ∧ (∀ (s : WudderClientState) (token refresh_token : String)
        (rest : List (Except PyError (String × String))),
      loop_refresh s (Except.ok (token, refresh_token) :: rest)
        = loop_refresh (update_tokens s token refresh_token) rest)
    ∧ (∀ s : WudderClientState, loop_refresh s [] = (s, none)) :=
  ⟨fun _ _ _ => rfl, fun _ _ _ _ => rfl, fun _ => rfl⟩

/-- C3: a completed `_update_tokens(access, refresh)` call leaves the stored
refresh token equal to `refresh` and the transport header "x-jwt-token"
equal to `access`, for every prior client state: the next refresh-token read
returns the new refresh token and every subsequent outbound request carries
the new access token. -/
theorem update_tokens_replaces_pair_and_header :
    ∀ (s : WudderClientState) (access refresh : String),
      (update_tokens s access refresh).refresh_token = some refresh
      ∧ List.lookup "x-jwt-token" (update_tokens s access refresh).headers
        = some access := by
  intro s access refresh
  exact ⟨rfl, by simp [update_tokens]⟩

/-- C4 counterexample: the claim says the refresh interval is exposed to the
caller as a configuration option named refreshIntervalSeconds with default
900.  The constructor of `WudderClient` accepts only email, password,
private_key_password and graphql_endpoint: no such option exists. -/
theorem refresh_interval_not_configurable_cex :
    ¬ ("refreshIntervalSeconds" ∈ wudderClientInitParams) := by
  decide

/-- C4 amended: the interval between proactive background refreshes is the
fixed constant 900 seconds (15 minutes), hard-coded in the loop body; it is
not exposed as a constructor configuration option. -/
theorem refresh_interval_fixed_at_900 :
    REFRESH_INTERVAL_SECONDS = 900
    ∧ "refreshIntervalSeconds" ∉ wudderClientInitParams := by
  exact ⟨rfl, by decide⟩

/-- C5: a retry-wrapped remote operation whose first attempt produces one of
the four non-retryable classified failure kinds (NotFound, Unauthorized,
BadRequest, Unexpected) performs exactly one attempt and surfaces that same
failure unchanged, for every remaining retry budget and every continuation
of attempt outcomes. -/
theorem retry_nonretryable_single_attempt :
    ∀ (budget : Nat) (e : PyError) (rest : List (Except PyError JVal)),
      isClassifiedNonRetryable e = true →
      callWithRetry budget (Except.error e :: rest) = (Except.error e, 1) := by
  intro budget e rest h
  exact callWithRetry_first_not_retryable budget e rest
    (classified_nonretryable_not_retryable e h)

/-- C5 witness: the NotFound failure surfaces unchanged after one attempt
with budget 3, even though a later attempt would have succeeded. -/
theorem retry_nonretryable_single_attempt_witness :
    isClassifiedNonRetryable (PyError.notFoundError (ErrPayload.message "absent")) = true
    ∧ callWithRetry 3
        [Except.error (PyError.notFoundError (ErrPayload.message "absent")),
          Except.ok (JVal.num 7)]
      = (Except.error (PyError.notFoundError (ErrPayload.message "absent")), 1) :=
  ⟨rfl,
    retry_nonretryable_single_attempt 3
      (PyError.notFoundError (ErrPayload.message "absent")) [Except.ok (JVal.num 7)] rfl⟩

/-- C6 counterexample: the claim covers every `get_proof` call and says that
whenever the parsed graphnData has a "proof" field the result carries
block_proof, proof and prefixes.  On a payload whose dictionary holds a
"proof" field but no "block_proof", the source raises KeyError while
building the result instead of returning any mapping. -/
theorem get_proof_missing_block_proof_cex :
    get_proof (some (some [("proof", JVal.str "p")]))
      = Except.error (PyError.keyError "block_proof") := rfl

/-- C6 amended: a missing record or missing graphnData returns nothing; when
the parsed graphnData contains "block_proof", a payload without "proof"
yields a mapping holding only block_proof (proof and prefixes omitted, not
defaulted), and a payload with both "proof" and "prefixes" yields all three
fields; a payload without "block_proof" raises KeyError "block_proof", and
one with "proof" but without "prefixes" raises KeyError "prefixes". -/
theorem get_proof_matches_amended_spec :
    ∀ response, get_proof response = get_proof_amended_spec response := by
  intro response
  match response with
  | none => rfl
  | some none => rfl
  | some (some d) =>
    cases hb : List.lookup "block_proof" d with
    | none =>
      simp [get_proof, get_proof_amended_spec, dictGet, hb, bind, Except.bind]
    | some bp =>
      cases hp : List.lookup "proof" d with
      | none =>
        simp [get_proof, get_proof_amended_spec, dictGet, hb, hp, bind,
          Except.bind, pure, Except.pure]
      | some p =>
        cases hpre : List.lookup "prefixes" d with
        | none =>
          simp [get_proof, get_proof_amended_spec, dictGet, hb, hp, hpre, bind,
            Except.bind, pure, Except.pure]
        | some pre =>
          simp [get_proof, get_proof_amended_spec, dictGet, hb, hp, hpre, bind,
            Except.bind, pure, Except.pure]

/-- C7: when the first transport exchange reports error code 404 for the
requested hash, `get_event` surfaces NotFound carrying that error entry after
exactly one attempt (no retry), whatever the retry budget, the data payload
and the remaining trace; and when the exchange reports no error but the
evidence payload for the hash is null, `get_event` raises NotFound with the
message "event not found", again after exactly one attempt. -/
theorem get_event_not_found_behaviour :
    ∀ (budget : Nat) (e : ErrorEntry) (erest : List ErrorEntry)
      (d0 : Option (List (String × JVal))) (rest : List TransportResult)
      (d : List (String × JVal)),
      (List.lookup "code" e = some (JVal.num 404) →
        get_event budget ({ data := d0, errors := e :: erest } :: rest)
          = (Except.error (PyError.notFoundError (ErrPayload.entry e)), 1))
      ∧ (List.lookup "evidence" d = some JVal.null →
        get_event budget ({ data := some d, errors := [] } :: rest)
          = (Except.error
              (PyError.notFoundError (ErrPayload.message "event not found")), 1)) := by
  intro budget e erest d0 rest d
  constructor
  · intro h
    have honce : get_event_call_once { data := d0, errors := e :: erest }
        = Except.error (PyError.notFoundError (ErrPayload.entry e)) := by
      simp [get_event_call_once, manage_errors, h, JVal.isNum]
    have hcall : get_event_call budget ({ data := d0, errors := e :: erest } :: rest)
        = (Except.error (PyError.notFoundError (ErrPayload.entry e)), 1) := by
      simp only [get_event_call, List.map]
      rw [honce]
      exact callWithRetry_first_not_retryable budget _ _ rfl
    simp [get_event, hcall]
  · intro h
    have honce : get_event_call_once { data := some d, errors := [] }
        = Except.ok JVal.null := by
      simp [get_event_call_once, manage_errors, h]
    have hcall : get_event_call budget ({ data := some d, errors := [] } :: rest)
        = (Except.ok JVal.null, 1) := by
      simp only [get_event_call, List.map]
      rw [honce]
      exact callWithRetry_first_ok budget _ _
    simp [get_event, hcall]

/-- C7 witness: with budget 3, a single 404 exchange surfaces NotFound with
the error entry after one attempt, and a clean exchange with a null evidence
payload raises NotFound with the message "event not found". -/
theorem get_event_not_found_behaviour_witness :
    (List.lookup "code" [("code", JVal.num 404)] = some (JVal.num 404)
      ∧ get_event 3 [{ data := none, errors := [[("code", JVal.num 404)]] }]
        = (Except.error
            (PyError.notFoundError (ErrPayload.entry [("code", JVal.num 404)])), 1))
    ∧ (List.lookup "evidence" [("evidence", JVal.null)] = some JVal.null
      ∧ get_event 3 [{ data := some [("evidence", JVal.null)], errors := [] }]
        = (Except.error
            (PyError.notFoundError (ErrPayload.message "event not found")), 1)) := by
  refine ⟨⟨rfl, ?_⟩, ⟨rfl, ?_⟩⟩
  · exact (get_event_not_found_behaviour 3 [("code", JVal.num 404)] [] none [] []).1 rfl
  · exact (get_event_not_found_behaviour 3 [] [] none []
      [("evidence", JVal.null)]).2 rfl

/-- C8 counterexample: a concrete schedule of a manual login racing with a
background refresh.  The login (access "tokLogin", refresh "refLogin") and
the stale refresh (access "tokStale", refresh "refStale") interleave as
login-write-1, refresh-write-1, refresh-write-2, login-write-2, so the login
completes last.  The resulting state mixes the two pairs — the stale refresh
token next to the fresh access token — and equals neither complete pair:
the older refresh overwrote part of the newer login. -/
theorem update_tokens_race_cex :
    Interleave (update_tokens_writes "tokLogin" "refLogin")
        (update_tokens_writes "tokStale" "refStale")
        [TokenWrite.setRefresh "refLogin", TokenWrite.setRefresh "refStale",
          TokenWrite.setHeader "tokStale", TokenWrite.setHeader "tokLogin"]
    ∧ execWrites initialClientState
        [TokenWrite.setRefresh "refLogin", TokenWrite.setRefresh "refStale",
          TokenWrite.setHeader "tokStale", TokenWrite.setHeader "tokLogin"]
      = { refresh_token := some "refStale", headers := [("x-jwt-token", "tokLogin")] }
    ∧ execWrites initialClientState
        [TokenWrite.setRefresh "refLogin", TokenWrite.setRefresh "refStale",
          TokenWrite.setHeader "tokStale", TokenWrite.setHeader "tokLogin"]
      ≠ update_tokens initialClientState "tokLogin" "refLogin"
    ∧ execWrites initialClientState
        [TokenWrite.setRefresh "refLogin", TokenWrite.setRefresh "refStale",
          TokenWrite.setHeader "tokStale", TokenWrite.setHeader "tokLogin"]
      ≠ update_tokens initialClientState "tokStale" "refStale" := by
  exact ⟨.left (.right (.right (.left .nil))), rfl, by decide, by decide⟩

/-- C8 amended: `_update_tokens` performs two separate unsynchronized atomic
writes, so under any interleaving of a manual update with a concurrent
background refresh each stored field independently keeps the value of the
last write touching it in the schedule — per-field last-writer-wins, not
last-completed-pair-wins — and the final state can mix fields of the two
pairs. -/
theorem update_tokens_race_per_field_last_writer :
    ∀ (tokA refA tokB refB : String) (ws : List TokenWrite)
      (s : WudderClientState),
      Interleave (update_tokens_writes tokA refA)
        (update_tokens_writes tokB refB) ws →
      (execWrites s ws).refresh_token
        = (match lastSetRefresh ws with
           | some r => some r
           | none => s.refresh_token)
      ∧ (execWrites s ws).headers
        = (match lastSetHeader ws with
           | some t => [("x-jwt-token", t)]
           | none => s.headers) := by
  intro _ _ _ _ ws s _
  exact execWrites_lastWrite ws s

/-- C8 witness: the per-field last-writer-wins characterization applied to
the mixed schedule of the counterexample race. -/
theorem update_tokens_race_per_field_last_writer_witness :
    Interleave (update_tokens_writes "tokA" "refA")
        (update_tokens_writes "tokB" "refB")
        [TokenWrite.setRefresh "refA", TokenWrite.setRefresh "refB",
          TokenWrite.setHeader "tokB", TokenWrite.setHeader "tokA"]
    ∧ (execWrites initialClientState
          [TokenWrite.setRefresh "refA", TokenWrite.setRefresh "refB",
            TokenWrite.setHeader "tokB", TokenWrite.setHeader "tokA"]).refresh_token
        = some "refB"
    ∧ (execWrites initialClientState
          [TokenWrite.setRefresh "refA", TokenWrite.setRefresh "refB",
            TokenWrite.setHeader "tokB", TokenWrite.setHeader "tokA"]).headers
        = [("x-jwt-token", "tokA")] := by
  have hi : Interleave (update_tokens_writes "tokA" "refA")
      (update_tokens_writes "tokB" "refB")
      [TokenWrite.setRefresh "refA", TokenWrite.setRefresh "refB",
        TokenWrite.setHeader "tokB", TokenWrite.setHeader "tokA"] :=
    .left (.right (.right (.left .nil)))
  have h := update_tokens_race_per_field_last_writer "tokA" "refA" "tokB" "refB"
    [TokenWrite.setRefresh "refA", TokenWrite.setRefresh "refB",
      TokenWrite.setHeader "tokB", TokenWrite.setHeader "tokA"]
    initialClientState hi
  exact ⟨hi, h.1, h.2⟩

/-- C9: every invocation of the static method `create_user` resolves the
unbound name `self` before the remote user-creation mutation can be issued;
the resolution fails with NameError, so the call list is empty and the
invocation fails, for every input and endpoint choice. -/
theorem create_user_always_nameError :
    ∀ (email password private_key : String) (graphql_endpoint : Option String),
      create_user email password private_key graphql_endpoint
        = ([], Except.error (PyError.nameError "name self is not defined")) := by
  intro email password private_key graphql_endpoint
  cases graphql_endpoint <;> rfl

/-- C10: `get_proof` is not total over server payloads: on a response whose
graphnData parses to a dictionary holding "block_proof" and "proof" but not
"prefixes", the source raises an unhandled KeyError instead of returning a
result or a classified failure. -/
theorem get_proof_keyError_missing_prefixes :
    get_proof (some (some [("block_proof", JVal.str "bp"), ("proof", JVal.str "p")]))
      = Except.error (PyError.keyError "prefixes") := rfl
